import Mathlib

/-!
A verification development for a multi-source research agent
(Google/Bing SERP + Reddit via the Bright Data API, orchestrated by a
nine-node task graph).  Shallow embedding of the snapshot-polling client
(`SnapshotOperation.py`), the search adapters (`webOperations.py`) and the
orchestration-graph nodes (`main.py`), with theorems about them.

Network and language-model collaborators are modelled as oracles passed
in explicitly; every network round trip and every sleep the code performs
is recorded in an event trace so that "no network call" and "slept between
attempts" statements are literal statements about the trace.
-/

/-- JSON values, modelling the Python values that flow through the
adapters (`response.json()` results, dict/list literals).  `null` models
Python `None`. -/
inductive Json where
  | null : Json
  | bool (b : Bool) : Json
  | num (n : Int) : Json
  | str (s : String) : Json
  | arr (elems : List Json) : Json
  | obj (fields : List (String × Json)) : Json

namespace Json

/-- Python truthiness of a JSON value (`if not x` tests). -/
def isTruthy : Json → Bool
  | .null => false
  | .bool b => b
  | .num n => n != 0
  | .str s => s ≠ ""
  | .arr xs => !xs.isEmpty
  | .obj fs => !fs.isEmpty

/-- Python `x.get(k)` on a dict: `none` when the key is absent or the
value is not a dict.  (Call sites where Python would instead raise
`AttributeError` on a non-dict match on `Json.obj` explicitly.) -/
def get : Json → String → Option Json
  | .obj fs, k => fs.lookup k
  | _, _ => none

/-- Whether the value is a JSON list.  Used to state that a value stored
in a field annotated `list` is in fact not a list. -/
def isArr : Json → Bool
  | .arr _ => true
  | _ => false

/-- Whether the value is a JSON object (Python `isinstance(x, dict)`). -/
def isObj : Json → Bool
  | .obj _ => true
  | _ => false

/-- Python iteration `for x in v`: lists yield elements, dicts yield their
keys, strings yield their characters; other values raise `TypeError`
(modelled as `none`). -/
def pyIter : Json → Option (List Json)
  | .arr xs => some xs
  | .obj fs => some (fs.map fun kv => Json.str kv.1)
  | .str s => some (s.toList.map fun c => Json.str (String.singleton c))
  | _ => none

end Json

/-- Python truthiness of an optional JSON value (`None` is falsy). -/
def optTruthy : Option Json → Bool
  | none => false
  | some j => j.isTruthy

/-- Exceptions the embedded code can raise. -/
inductive PyError where
  | environmentError (msg : String)
  | valueError (msg : String)
  | typeError (msg : String)
deriving DecidableEq

/-- Observable effects: HTTP requests issued and sleeps performed.
`post url params body` is `requests.post(url, params=…, json=…)`;
`get url` is `requests.get(url)`; `sleep s` is `time.sleep(s)`. -/
inductive NetEvent where
  | post (url : String) (params : List (String × String)) (body : Json)
  | get (url : String)
  | sleep (seconds : Nat)

/-! ## Snapshot client (`SnapshotOperation.py`) -/

/-- The progress endpoint polled by `check_snapshot_status`. -/
def progressEndpoint (snapshot_id : String) : String :=
  "https://api.brightdata.com/datasets/v3/progress/" ++ snapshot_id

/-- Classification of one polling attempt's outcome, as the loop body of
`check_snapshot_status` distinguishes them.  The poll oracle returns
`none` when the attempt raised (transport error, `raise_for_status`, JSON
parse failure) and `some body` for a parsed response body; the loop then
reads `body.get("status")`.  Anything other than the strings `"ready"`
and `"failed"` — including `"running"`, unexpected statuses, missing
status fields and raised exceptions — lands in `other` and is retried. -/
inductive StatusClass where
  | ready
  | failed
  | other
deriving DecidableEq

/-- Classify one attempt's response (see `StatusClass`). -/
def classify (resp : Option Json) : StatusClass :=
  match resp with
  | none => .other
  | some body =>
    match body.get "status" with
    | some (Json.str s) =>
      if s = "ready" then .ready else if s = "failed" then .failed else .other
    | _ => .other

/-- The `for attempt in range(1, max_retries + 1)` loop of
`check_snapshot_status`: `fuel` is the number of attempts left, `attempt`
the 1-based index of the next attempt.  Terminal statuses return from
inside the loop body, before `time.sleep`; every other outcome (including
a raised exception) falls through to `time.sleep(interval)` and the next
iteration.  Returns the final result and the trace of requests/sleeps. -/
def snapshotLoop (endpoint : String) (poll : Nat → Option Json)
    (interval : Nat) : Nat → Nat → Bool × List NetEvent
  | 0, _ => (false, [])
  | fuel + 1, attempt =>
    match classify (poll attempt) with
    | .ready => (true, [NetEvent.get endpoint])
    | .failed => (false, [NetEvent.get endpoint])
    | .other =>
      let rest := snapshotLoop endpoint poll interval fuel (attempt + 1)
      (rest.1, NetEvent.get endpoint :: NetEvent.sleep interval :: rest.2)

/-- The function `check_snapshot_status(snapshot_id, max_retries=60, interval=5)`.
`apiKey` is `os.getenv("BRIGHTDATA_API_KEY")`; when absent the function
raises `EnvironmentError` before any network I/O.  `poll attempt` is the
outcome of the HTTP GET made on that attempt (see `classify`). -/
def check_snapshot_status (apiKey : Option String) (snapshot_id : String)
    (poll : Nat → Option Json) (max_retries : Nat := 60) (interval : Nat := 5) :
    Except PyError Bool × List NetEvent :=
  match apiKey with
  | none =>
    (.error (PyError.environmentError
      "Missing BRIGHTDATA_API_KEY in environment variables."), [])
  | some _ =>
    let r := snapshotLoop (progressEndpoint snapshot_id) poll interval max_retries 1
    (.ok r.1, r.2)

/-- The trace of a run that observes its first terminal status on attempt
`k`: `k - 1` poll-then-sleep rounds followed by a final poll with no
trailing sleep. -/
def terminalTrace (snapshot_id : String) (interval : Nat) (k : Nat) : List NetEvent :=
  (List.replicate (k - 1)
    [NetEvent.get (progressEndpoint snapshot_id), NetEvent.sleep interval]).flatten ++
  [NetEvent.get (progressEndpoint snapshot_id)]

lemma snapshotLoop_all_other (endpoint : String) (poll : Nat → Option Json)
    (interval : Nat) :
    ∀ fuel a, (∀ i, a ≤ i → i < a + fuel → classify (poll i) = .other) →
    snapshotLoop endpoint poll interval fuel a =
      (false, (List.replicate fuel [NetEvent.get endpoint, NetEvent.sleep interval]).flatten) := by
  intro fuel
  induction fuel with
  | zero => intro a _; simp [snapshotLoop]
  | succ n ih =>
    intro a h
    have ha : classify (poll a) = .other := h a le_rfl (by omega)
    have hrest := ih (a + 1) (fun i h1 h2 => h i (by omega) (by omega))
    simp [snapshotLoop, ha, hrest, List.replicate_succ]

lemma snapshotLoop_terminal (endpoint : String) (poll : Nat → Option Json)
    (interval : Nat) :
    ∀ fuel a k, a ≤ k → k < a + fuel →
    (∀ i, a ≤ i → i < k → classify (poll i) = .other) →
    classify (poll k) ≠ .other →
    snapshotLoop endpoint poll interval fuel a =
      ((if classify (poll k) = .ready then true else false),
       (List.replicate (k - a) [NetEvent.get endpoint, NetEvent.sleep interval]).flatten ++
         [NetEvent.get endpoint]) := by
  intro fuel
  induction fuel with
  | zero => intro a k h1 h2; omega
  | succ n ih =>
    intro a k hak hkf hpre hterm
    rcases Nat.eq_or_lt_of_le hak with heq | hlt
    · subst heq
      rcases hc : classify (poll a) with _ | _ | _
      · simp [snapshotLoop, hc]
      · simp [snapshotLoop, hc]
      · exact absurd hc hterm
    · have ha : classify (poll a) = .other := hpre a le_rfl hlt
      have hrest := ih (a + 1) k (by omega) (by omega)
        (fun i h1 h2 => hpre i (by omega) h2) hterm
      have hk : k - a = (k - (a + 1)) + 1 := by omega
      simp [snapshotLoop, ha, hrest, hk, List.replicate_succ]

/-- C1: when no terminal status (`ready`/`failed`) is observed within
`max_retries` polling attempts — transport/parse errors and non-terminal
statuses alike count as retries — `check_snapshot_status` returns `False`
(timed out), having issued exactly `max_retries` progress requests with a
sleep of `interval` seconds after each one (in particular, between each
pair of consecutive attempts). -/
theorem check_snapshot_status_timeout (key snapshot_id : String)
    (poll : Nat → Option Json) (max_retries interval : Nat)
    (hnt : ∀ i, 1 ≤ i → i ≤ max_retries → classify (poll i) = .other) :
    check_snapshot_status (some key) snapshot_id poll max_retries interval =
      (.ok false,
       (List.replicate max_retries
         [NetEvent.get (progressEndpoint snapshot_id),
          NetEvent.sleep interval]).flatten) := by
  have h := snapshotLoop_all_other (progressEndpoint snapshot_id) poll interval
    max_retries 1 (fun i h1 h2 => hnt i h1 (by omega))
  simp [check_snapshot_status, h]

/-- Witness for `check_snapshot_status_timeout`: a stream that is
`"running"`, then a raised transport error, then `"running"` times out
after 3 attempts of a 3-attempt run, the error counting as a retry. -/
theorem check_snapshot_status_timeout_witness :
    check_snapshot_status (some "k") "snap"
        (fun a => if a = 2 then none
                  else some (Json.obj [("status", Json.str "running")])) 3 5 =
      (.ok false,
       (List.replicate 3 [NetEvent.get (progressEndpoint "snap"),
          NetEvent.sleep 5]).flatten) :=
  check_snapshot_status_timeout "k" "snap" _ 3 5
    (fun i h1 h2 => by interval_cases i <;> simp [classify, Json.get])

/-- C2: if the first terminal status is observed on attempt `k` (all
earlier attempts being non-terminal), `check_snapshot_status` returns on
that very attempt with no further polling and no sleep after it:
`ready` yields `True` and `failed` yields `False`. -/
theorem check_snapshot_status_terminal (key snapshot_id : String)
    (poll : Nat → Option Json) (max_retries interval k : Nat)
    (hk1 : 1 ≤ k) (hkm : k ≤ max_retries)
    (hpre : ∀ i, 1 ≤ i → i < k → classify (poll i) = .other)
    (hterm : classify (poll k) ≠ .other) :
    (classify (poll k) = .ready →
      check_snapshot_status (some key) snapshot_id poll max_retries interval =
        (.ok true, terminalTrace snapshot_id interval k)) ∧
    (classify (poll k) = .failed →
      check_snapshot_status (some key) snapshot_id poll max_retries interval =
        (.ok false, terminalTrace snapshot_id interval k)) := by
  have h := snapshotLoop_terminal (progressEndpoint snapshot_id) poll interval
    max_retries 1 k hk1 (by omega) hpre hterm
  constructor
  · intro hr
    simp [check_snapshot_status, h, hr, terminalTrace]
  · intro hf
    simp [check_snapshot_status, h, hf, terminalTrace]

/-- Witness for `check_snapshot_status_terminal`: a stream that is
`"running"` on attempt 1 and `"ready"` on attempt 2 succeeds on attempt 2
of a 60-attempt run, with one sleep in between and none after. -/
theorem check_snapshot_status_terminal_witness :
    check_snapshot_status (some "k") "snap"
        (fun a => if a = 2 then some (Json.obj [("status", Json.str "ready")])
                  else some (Json.obj [("status", Json.str "running")])) 60 5 =
      (.ok true, terminalTrace "snap" 5 2) :=
  (check_snapshot_status_terminal "k" "snap" _ 60 5 2 (by omega) (by omega)
    (fun i _ h2 => by
      interval_cases i
      simp [classify, Json.get])
    (by simp [classify, Json.get])).1
    (by simp [classify, Json.get])

/-! ## Search adapters (`webOperations.py`) -/

/-- Configuration constants of `webOperations.py`. -/
def REDDIT_DISCOVERY_DATASET : String := "gd_lvz8ah06191smkebj4"

/-- Dataset id for Reddit post-comment retrieval. -/
def REDDIT_POSTS_DATASET : String := "gd_lvzdpsdlw09j6t702"

/-- Base URL of the Bright Data API. -/
def BRIGHTDATA_API_BASE : String := "https://api.brightdata.com"

/-- The external collaborators of the adapters: the environment variable
`BRIGHTDATA_API_KEY` and the provider's HTTP behaviour.  `post` gives
the parsed body of a `requests.post` (`none` = the request raised, failed
`raise_for_status`, or its body failed to parse); `poll sid attempt`
gives the body of the `attempt`-th progress GET for snapshot `sid`;
`download sid` gives the parsed body of the snapshot-download GET. -/
structure Env where
  apiKey : Option String
  post : String → List (String × String) → Json → Option Json
  poll : String → Nat → Option Json
  download : String → Option Json

/-- The helper `_send_api_request(url, **kwargs)`: raises `EnvironmentError` when the
credential is missing (before issuing any request, and outside the `try`
block, so the adapters' fail-closed handlers never see it); otherwise
issues one POST and maps any transport/parse failure to `None`. -/
def send_api_request (env : Env) (url : String)
    (params : List (String × String)) (body : Json) :
    Except PyError (Option Json) × List NetEvent :=
  match env.apiKey with
  | none =>
    (.error (PyError.environmentError
      "Missing BRIGHTDATA_API_KEY in environment variables."), [])
  | some _ => (.ok (env.post url params body), [NetEvent.post url params body])

/-- A minimal model of `urllib.parse.quote_plus` (Python stdlib, external
collaborator): spaces become `+`, unreserved characters pass through,
everything else is percent-encoded byte-wise from UTF-8. -/
def hexDigit (n : Nat) : Char :=
  if n < 10 then Char.ofNat (48 + n) else Char.ofNat (55 + n)

/-- Percent-encode one byte as `%XX`. -/
def percentByte (b : UInt8) : String :=
  "%" ++ String.singleton (hexDigit (b.toNat / 16)) ++
    String.singleton (hexDigit (b.toNat % 16))

/-- Encode one character for `quote_plus`. -/
def quotePlusChar (c : Char) : String :=
  if c = ' ' then "+"
  else if c.isAlphanum || c = '-' || c = '_' || c = '.' || c = '~' then
    String.singleton c
  else
    String.join ((String.singleton c).toUTF8.toList.map percentByte)

/-- Model of `urllib.parse.quote_plus`. -/
def quote_plus (s : String) : String :=
  String.join (s.toList.map quotePlusChar)

/-- The `base_urls` table of `serp_search`. -/
def base_urls : List (String × String) :=
  [("google", "https://www.google.com/search"),
   ("bing", "https://www.bing.com/search")]

/-- The single POST endpoint used by `serp_search`. -/
def serpApiUrl : String := BRIGHTDATA_API_BASE ++ "/request"

/-- The request body `serp_search` sends for a given SERP base URL and
query: only the `url` field depends on the engine. -/
def serpPayload (base query : String) : Json :=
  Json.obj [("zone", Json.str "ai_agent2"),
            ("url", Json.str (base ++ "?q=" ++ quote_plus query ++ "&brd_json=1")),
            ("format", Json.str "raw")]

/-- The adapter `serp_search(query, engine)`: rejects unknown engines with
`ValueError`; otherwise issues one proxy POST and, on a truthy response,
projects the `knowledge` (default `{}`) and `organic` (default `[]`)
fields into the result; a falsy/absent response yields `None`.  A truthy
non-dict response would raise `AttributeError` in Python at
`response_data.get`; that unreachable-by-contract case is modelled as a
`typeError`. -/
def serp_search (env : Env) (query : String) (engine : String := "google") :
    Except PyError (Option Json) × List NetEvent :=
  match base_urls.lookup engine with
  | none =>
    (.error (PyError.valueError
      ("Invalid search engine '" ++ engine ++ "'. Supported: google, bing")), [])
  | some base =>
    let payload := serpPayload base query
    match send_api_request env serpApiUrl [] payload with
    | (.error e, tr) => (.error e, tr)
    | (.ok respData, tr) =>
      if optTruthy respData then
        match respData with
        | some (Json.obj fs) =>
          (.ok (some (Json.obj
            [("knowledge", (fs.lookup "knowledge").getD (Json.obj [])),
             ("organic", (fs.lookup "organic").getD (Json.arr []))])), tr)
        | _ => (.error (PyError.typeError "attribute get on non-dict"), tr)
      else (.ok none, tr)

/-- The function `fetch_snapshot_data(snapshot_id, file_format="json")`: raises
`EnvironmentError` without the credential; otherwise one GET, returning
the parsed body or `None` on any transport/parse failure. -/
def fetch_snapshot_data (env : Env) (snapshot_id : String)
    (file_format : String := "json") :
    Except PyError (Option Json) × List NetEvent :=
  match env.apiKey with
  | none =>
    (.error (PyError.environmentError
      "Missing BRIGHTDATA_API_KEY in environment variables."), [])
  | some _ =>
    let url := BRIGHTDATA_API_BASE ++ "/datasets/v3/snapshot/" ++ snapshot_id ++
      "?format=" ++ file_format
    (.ok (env.download snapshot_id), [NetEvent.get url])

/-- The helper `_execute_snapshot_pipeline(trigger_url, params, payload, task_name)`:
trigger POST → falsy response or missing/falsy `snapshot_id` short-circuit
to `None` → `check_snapshot_status` (defaults 60/5) → on not-ready,
`None` → `fetch_snapshot_data`.  A truthy non-dict trigger response would
raise `AttributeError` at `.get("snapshot_id")` (modelled as `typeError`);
a truthy non-string `snapshot_id` would be interpolated into the progress
URL by `str()` (never produced by the provider; modelled as `typeError`
to keep snapshot ids strings). -/
def execute_snapshot_pipeline (env : Env) (trigger_url : String)
    (params : List (String × String)) (payload : Json) :
    Except PyError (Option Json) × List NetEvent :=
  match send_api_request env trigger_url params payload with
  | (.error e, tr) => (.error e, tr)
  | (.ok trigger_response, tr1) =>
    if optTruthy trigger_response then
      match trigger_response with
      | some (Json.obj fs) =>
        let snapshot_id := (fs.lookup "snapshot_id").getD Json.null
        if snapshot_id.isTruthy then
          match snapshot_id with
          | Json.str sid =>
            match check_snapshot_status env.apiKey sid (env.poll sid) 60 5 with
            | (.error e, tr2) => (.error e, tr1 ++ tr2)
            | (.ok ready, tr2) =>
              if ready then
                match fetch_snapshot_data env sid "json" with
                | (res, tr3) => (res, tr1 ++ tr2 ++ tr3)
              else (.ok none, tr1 ++ tr2)
          | _ => (.error (PyError.typeError "non-string snapshot_id"), tr1)
        else (.ok none, tr1)
      | _ => (.error (PyError.typeError "attribute get on non-dict"), tr1)
    else (.ok none, tr1)

/-- The trigger endpoint used by both Reddit adapters. -/
def triggerUrl : String := BRIGHTDATA_API_BASE ++ "/datasets/v3/trigger"

/-- Query parameters of the Reddit keyword-discovery trigger. -/
def redditSearchParams : List (String × String) :=
  [("dataset_id", REDDIT_DISCOVERY_DATASET), ("include_errors", "true"),
   ("type", "discover_new"), ("discover_by", "keyword")]

/-- Trigger payload of the Reddit keyword-discovery job. -/
def redditSearchPayload (keyword date sort_by : String) (num_of_posts : Int) : Json :=
  Json.arr [Json.obj [("keyword", Json.str keyword), ("date", Json.str date),
                      ("sort_by", Json.str sort_by),
                      ("num_of_posts", Json.num num_of_posts)]]

/-- The defensive per-record mapping of `reddit_search_api`: only
dict records are kept, projected to `{title, url}`. -/
def parseSearchRecord : Json → Option Json
  | Json.obj fs =>
    some (Json.obj [("title", (fs.lookup "title").getD Json.null),
                    ("url", (fs.lookup "url").getD Json.null)])
  | _ => none

/-- The adapter `reddit_search_api(keyword, date="All time", sort_by="Hot",
num_of_posts=75)`: runs the snapshot pipeline against the discovery
dataset; a falsy download short-circuits to `None`; otherwise iterates
the payload, keeps only dict records and returns
`{parsed_posts, total_found}`. -/
def reddit_search_api (env : Env) (keyword : String) (date : String := "All time")
    (sort_by : String := "Hot") (num_of_posts : Int := 75) :
    Except PyError (Option Json) × List NetEvent :=
  match execute_snapshot_pipeline env triggerUrl redditSearchParams
      (redditSearchPayload keyword date sort_by num_of_posts) with
  | (.error e, tr) => (.error e, tr)
  | (.ok snapshot_data, tr) =>
    if optTruthy snapshot_data then
      match snapshot_data with
      | some sd =>
        match sd.pyIter with
        | none => (.error (PyError.typeError "iteration over non-iterable"), tr)
        | some items =>
          let parsed_posts := items.filterMap parseSearchRecord
          (.ok (some (Json.obj
            [("parsed_posts", Json.arr parsed_posts),
             ("total_found", Json.num parsed_posts.length)])), tr)
      | none => (.ok none, tr)
    else (.ok none, tr)

/-- Query parameters of the Reddit comment-retrieval trigger. -/
def redditPostsParams : List (String × String) :=
  [("dataset_id", REDDIT_POSTS_DATASET), ("include_errors", "true")]

/-- Trigger payload of the Reddit comment-retrieval job: one sub-job per
URL, batched into a single request. -/
def redditPostsPayload (urls : List String) (days_back : Int)
    (load_all_replies : Bool) (comment_limit : String) : Json :=
  Json.arr (urls.map fun url =>
    Json.obj [("url", Json.str url), ("days_back", Json.num days_back),
              ("load_all_replies", Json.bool load_all_replies),
              ("comment_limit", Json.str comment_limit)])

/-- The defensive per-record mapping of `reddit_post_retrieval`: only
dict records are kept, projected to `{comment_id, content, date}` (from
the raw keys `comment_id`/`comment`/`date_posted`). -/
def parseCommentRecord : Json → Option Json
  | Json.obj fs =>
    some (Json.obj [("comment_id", (fs.lookup "comment_id").getD Json.null),
                    ("content", (fs.lookup "comment").getD Json.null),
                    ("date", (fs.lookup "date_posted").getD Json.null)])
  | _ => none

/-- The adapter `reddit_post_retrieval(urls, days_back=10, load_all_replies=False,
comment_limit="")`: an empty `urls` list returns `None` immediately,
before the credential check and before any request; otherwise one batched
snapshot pipeline, then the same defensive record mapping, returning
`{comments, total_retrieved}`. -/
def reddit_post_retrieval (env : Env) (urls : List String)
    (days_back : Int := 10) (load_all_replies : Bool := false)
    (comment_limit : String := "") :
    Except PyError (Option Json) × List NetEvent :=
  if urls.isEmpty then (.ok none, [])
  else
    match execute_snapshot_pipeline env triggerUrl redditPostsParams
        (redditPostsPayload urls days_back load_all_replies comment_limit) with
    | (.error e, tr) => (.error e, tr)
    | (.ok snapshot_data, tr) =>
      if optTruthy snapshot_data then
        match snapshot_data with
        | some sd =>
          match sd.pyIter with
          | none => (.error (PyError.typeError "iteration over non-iterable"), tr)
          | some items =>
            let parsed_comments := items.filterMap parseCommentRecord
            (.ok (some (Json.obj
              [("comments", Json.arr parsed_comments),
               ("total_retrieved", Json.num parsed_comments.length)])), tr)
        | none => (.ok none, tr)
      else (.ok none, tr)

/-- C6: on the empty URL list, `reddit_post_retrieval` returns `None`
immediately — an `.ok` result, not an error — with an empty network
trace, for every environment and every choice of the optional
arguments. -/
theorem reddit_post_retrieval_empty_urls (env : Env) (days_back : Int)
    (load_all_replies : Bool) (comment_limit : String) :
    reddit_post_retrieval env [] days_back load_all_replies comment_limit =
      (.ok none, []) := by
  simp [reddit_post_retrieval]

lemma base_urls_google :
    base_urls.lookup "google" = some "https://www.google.com/search" := by decide

lemma base_urls_bing :
    base_urls.lookup "bing" = some "https://www.bing.com/search" := by decide

/-- C9: with `BRIGHTDATA_API_KEY` absent from the environment, every
adapter entry point raises `EnvironmentError` with an empty network
trace — the error is raised before any network I/O and surfaces as a
raised exception (`.error`), not as the fail-closed `None` (`.ok none`)
the adapters use for transport errors. -/
theorem missing_credential_raises (env : Env) (hkey : env.apiKey = none)
    (url qg sid fmt kw date sb cl : String)
    (params : List (String × String)) (body : Json)
    (n db : Int) (lar : Bool) (urls : List String) (hurls : urls ≠ [])
    (poll : Nat → Option Json) (m i : Nat) :
    send_api_request env url params body =
      (.error (PyError.environmentError
        "Missing BRIGHTDATA_API_KEY in environment variables."), []) ∧
    serp_search env qg "google" =
      (.error (PyError.environmentError
        "Missing BRIGHTDATA_API_KEY in environment variables."), []) ∧
    serp_search env qg "bing" =
      (.error (PyError.environmentError
        "Missing BRIGHTDATA_API_KEY in environment variables."), []) ∧
    reddit_search_api env kw date sb n =
      (.error (PyError.environmentError
        "Missing BRIGHTDATA_API_KEY in environment variables."), []) ∧
    reddit_post_retrieval env urls db lar cl =
      (.error (PyError.environmentError
        "Missing BRIGHTDATA_API_KEY in environment variables."), []) ∧
    check_snapshot_status env.apiKey sid poll m i =
      (.error (PyError.environmentError
        "Missing BRIGHTDATA_API_KEY in environment variables."), []) ∧
    fetch_snapshot_data env sid fmt =
      (.error (PyError.environmentError
        "Missing BRIGHTDATA_API_KEY in environment variables."), []) := by
  refine ⟨?_, ?_, ?_, ?_, ?_, ?_, ?_⟩
  · simp [send_api_request, hkey]
  · simp [serp_search, base_urls_google, send_api_request, hkey]
  · simp [serp_search, base_urls_bing, send_api_request, hkey]
  · simp [reddit_search_api, execute_snapshot_pipeline, send_api_request, hkey]
  · have h : urls.isEmpty = false := by
      cases urls with
      | nil => exact absurd rfl hurls
      | cons a t => rfl
    simp [reddit_post_retrieval, h, execute_snapshot_pipeline, send_api_request, hkey]
  · simp [check_snapshot_status, hkey]
  · simp [fetch_snapshot_data, hkey]

/-- Witness for `missing_credential_raises` at a concrete key-less
environment: the `serp_search` and `reddit_post_retrieval` conjuncts at
concrete arguments. -/
theorem missing_credential_raises_witness :
    serp_search (Env.mk none (fun _ _ _ => none) (fun _ _ => none) (fun _ => none))
        "q" "google" =
      (.error (PyError.environmentError
        "Missing BRIGHTDATA_API_KEY in environment variables."), []) ∧
    reddit_post_retrieval
        (Env.mk none (fun _ _ _ => none) (fun _ _ => none) (fun _ => none))
        ["https://www.reddit.com/r/a/1"] 10 false "" =
      (.error (PyError.environmentError
        "Missing BRIGHTDATA_API_KEY in environment variables."), []) := by
  have h := missing_credential_raises
    (Env.mk none (fun _ _ _ => none) (fun _ _ => none) (fun _ => none)) rfl
    "u" "q" "s" "json" "kw" "All time" "Hot" "" [] Json.null 75 10 false
    ["https://www.reddit.com/r/a/1"] (by simp) (fun _ => none) 60 5
  exact ⟨h.2.1, h.2.2.2.2.1⟩

lemma lookup_ne_nil {α : Type} (fs : List (String × α)) (k : String) (v : α)
    (h : fs.lookup k = some v) : fs.isEmpty = false := by
  cases fs with
  | nil => simp [List.lookup] at h
  | cons a t => rfl

lemma serp_search_trace (env : Env) (q key engine base : String)
    (hkey : env.apiKey = some key)
    (hbase : base_urls.lookup engine = some base) :
    (serp_search env q engine).2 =
      [NetEvent.post serpApiUrl [] (serpPayload base q)] := by
  unfold serp_search send_api_request
  rw [hbase, hkey]
  rcases h : env.post serpApiUrl [] (serpPayload base q) with _ | j
  · simp [h, optTruthy]
  · rcases j with _ | b | n | s | xs | fs <;>
      simp [h, optTruthy, Json.isTruthy] <;> (try split) <;> (try rfl)

/-- C7: for every query, the provider requests issued by
`serp_search(q, "google")` and `serp_search(q, "bing")` go to the same
proxy endpoint with the same parameters and the same body shape
(`serpPayload`), differing only in the SERP base URL selected by the
engine argument; and on a (truthy, dict) provider response, the
`knowledge` and `organic` fields are copied 1:1 into the result. -/
theorem serp_search_engines (env : Env) (q key engine : String)
    (fs : List (String × Json)) (k o : Json)
    (hkey : env.apiKey = some key)
    (heng : engine = "google" ∨ engine = "bing")
    (hresp : env.post serpApiUrl []
        (serpPayload ((base_urls.lookup engine).getD "") q) = some (Json.obj fs))
    (hk : fs.lookup "knowledge" = some k) (ho : fs.lookup "organic" = some o) :
    (serp_search env q "google").2 =
      [NetEvent.post serpApiUrl [] (serpPayload "https://www.google.com/search" q)] ∧
    (serp_search env q "bing").2 =
      [NetEvent.post serpApiUrl [] (serpPayload "https://www.bing.com/search" q)] ∧
    (serp_search env q engine).1 =
      .ok (some (Json.obj [("knowledge", k), ("organic", o)])) := by
  have hne := lookup_ne_nil fs "knowledge" k hk
  refine ⟨serp_search_trace env q key "google" _ hkey base_urls_google,
          serp_search_trace env q key "bing" _ hkey base_urls_bing, ?_⟩
  rcases heng with he | he
  · subst he
    rw [base_urls_google, Option.getD_some] at hresp
    unfold serp_search send_api_request
    rw [base_urls_google, hkey]
    simp [hresp, optTruthy, Json.isTruthy, hne, hk, ho]
  · subst he
    rw [base_urls_bing, Option.getD_some] at hresp
    unfold serp_search send_api_request
    rw [base_urls_bing, hkey]
    simp [hresp, optTruthy, Json.isTruthy, hne, hk, ho]

/-- Witness for `serp_search_engines`: a concrete provider response with
`knowledge` and `organic` fields is mapped 1:1. -/
theorem serp_search_engines_witness :
    (serp_search
        (Env.mk (some "key")
          (fun _ _ _ => some (Json.obj
            [("knowledge", Json.str "panel"),
             ("organic", Json.arr [Json.str "r1"])]))
          (fun _ _ => none) (fun _ => none))
        "noise cancelling" "google").1 =
      .ok (some (Json.obj [("knowledge", Json.str "panel"),
                           ("organic", Json.arr [Json.str "r1"])])) :=
  (serp_search_engines _ "noise cancelling" "key" "google"
    [("knowledge", Json.str "panel"), ("organic", Json.arr [Json.str "r1"])]
    (Json.str "panel") (Json.arr [Json.str "r1"]) rfl (Or.inl rfl)
    rfl rfl rfl).2.2

/-- The projection `reddit_search_api` applies to a dict record. -/
def searchView : Json → Json
  | Json.obj fs =>
    Json.obj [("title", (fs.lookup "title").getD Json.null),
              ("url", (fs.lookup "url").getD Json.null)]
  | _ => Json.null

/-- The projection `reddit_post_retrieval` applies to a dict record. -/
def commentView : Json → Json
  | Json.obj fs =>
    Json.obj [("comment_id", (fs.lookup "comment_id").getD Json.null),
              ("content", (fs.lookup "comment").getD Json.null),
              ("date", (fs.lookup "date_posted").getD Json.null)]
  | _ => Json.null

lemma filterMap_parseSearchRecord (xs : List Json) :
    xs.filterMap parseSearchRecord = (xs.filter Json.isObj).map searchView := by
  induction xs with
  | nil => rfl
  | cons j t ih =>
    cases j <;>
      simp [parseSearchRecord, searchView, Json.isObj, List.filterMap_cons, ih]

lemma filterMap_parseCommentRecord (xs : List Json) :
    xs.filterMap parseCommentRecord = (xs.filter Json.isObj).map commentView := by
  induction xs with
  | nil => rfl
  | cons j t ih =>
    cases j <;>
      simp [parseCommentRecord, commentView, Json.isObj, List.filterMap_cons, ih]

/-- A successful run of the trigger → poll → download pipeline: the
trigger returns a snapshot id, the first progress poll reports `ready`,
and the download returns `data`. -/
lemma pipeline_success (env : Env) (key turl sid : String)
    (params : List (String × String)) (payload : Json) (data : Option Json)
    (hkey : env.apiKey = some key)
    (htrig : env.post turl params payload =
      some (Json.obj [("snapshot_id", Json.str sid)]))
    (hsid : sid ≠ "")
    (hready : classify (env.poll sid 1) = .ready)
    (hdl : env.download sid = data) :
    execute_snapshot_pipeline env turl params payload =
      (.ok data,
       [NetEvent.post turl params payload,
        NetEvent.get (progressEndpoint sid),
        NetEvent.get (BRIGHTDATA_API_BASE ++ "/datasets/v3/snapshot/" ++ sid ++
          "?format=json")]) := by
  have hterm : classify (env.poll sid 1) ≠ .other := by rw [hready]; simp
  have hloop := snapshotLoop_terminal (progressEndpoint sid) (env.poll sid) 5 60 1 1
    le_rfl (by omega) (fun i h1 h2 => absurd h1 (by omega)) hterm
  rw [hready] at hloop
  simp only [if_pos rfl] at hloop
  simp [execute_snapshot_pipeline, send_api_request, check_snapshot_status,
    fetch_snapshot_data, hkey, htrig, hloop, hdl, optTruthy, Json.isTruthy,
    List.lookup, hsid]
  rw [String.append_assoc]
  congr 1

/-- C8: when the snapshot download payload is a list containing malformed
(non-dict) entries, `reddit_search_api` and `reddit_post_retrieval` do
not raise: each returns an `.ok` result whose parsed list is exactly the
dict-typed records, projected — the malformed entries are dropped. -/
theorem reddit_adapters_drop_malformed (env env2 : Env)
    (key key2 kw date sb sid sid2 cl : String) (n db : Int) (lar : Bool)
    (urls : List String) (xs ys : List Json)
    (hkey : env.apiKey = some key)
    (htrig : env.post triggerUrl redditSearchParams
        (redditSearchPayload kw date sb n) =
      some (Json.obj [("snapshot_id", Json.str sid)]))
    (hsid : sid ≠ "")
    (hready : classify (env.poll sid 1) = .ready)
    (hdl : env.download sid = some (Json.arr xs))
    (hxs : xs ≠ [])
    (hkey2 : env2.apiKey = some key2)
    (hurls : urls ≠ [])
    (htrig2 : env2.post triggerUrl redditPostsParams
        (redditPostsPayload urls db lar cl) =
      some (Json.obj [("snapshot_id", Json.str sid2)]))
    (hsid2 : sid2 ≠ "")
    (hready2 : classify (env2.poll sid2 1) = .ready)
    (hdl2 : env2.download sid2 = some (Json.arr ys))
    (hys : ys ≠ []) :
    (reddit_search_api env kw date sb n).1 =
      .ok (some (Json.obj
        [("parsed_posts", Json.arr ((xs.filter Json.isObj).map searchView)),
         ("total_found",
          Json.num ((xs.filter Json.isObj).map searchView).length)])) ∧
    (reddit_post_retrieval env2 urls db lar cl).1 =
      .ok (some (Json.obj
        [("comments", Json.arr ((ys.filter Json.isObj).map commentView)),
         ("total_retrieved",
          Json.num ((ys.filter Json.isObj).map commentView).length)])) := by
  have hp := pipeline_success env key triggerUrl sid redditSearchParams
    (redditSearchPayload kw date sb n) (some (Json.arr xs)) hkey htrig hsid hready hdl
  have hp2 := pipeline_success env2 key2 triggerUrl sid2 redditPostsParams
    (redditPostsPayload urls db lar cl) (some (Json.arr ys)) hkey2 htrig2 hsid2
    hready2 hdl2
  have hu : urls.isEmpty = false := by
    cases urls with
    | nil => exact absurd rfl hurls
    | cons a t => rfl
  constructor
  · simp [reddit_search_api, hp, optTruthy, Json.isTruthy, hxs, Json.pyIter,
      filterMap_parseSearchRecord]
  · simp [reddit_post_retrieval, hu, hp2, optTruthy, Json.isTruthy, hys,
      Json.pyIter, filterMap_parseCommentRecord]

/-- Witness for `reddit_adapters_drop_malformed`: payloads holding one
well-formed dict record plus a string and a number are parsed to
single-record outputs. -/
theorem reddit_adapters_drop_malformed_witness :
    (reddit_search_api
        (Env.mk (some "key")
          (fun _ _ _ => some (Json.obj [("snapshot_id", Json.str "s1")]))
          (fun _ _ => some (Json.obj [("status", Json.str "ready")]))
          (fun _ => some (Json.arr
            [Json.obj [("title", Json.str "t"), ("url", Json.str "u")],
             Json.str "junk", Json.num 7])))
        "kw" "All time" "Hot" 75).1 =
      .ok (some (Json.obj
        [("parsed_posts", Json.arr
          (([Json.obj [("title", Json.str "t"), ("url", Json.str "u")],
             Json.str "junk", Json.num 7].filter Json.isObj).map searchView)),
         ("total_found",
          Json.num (([Json.obj [("title", Json.str "t"), ("url", Json.str "u")],
             Json.str "junk", Json.num 7].filter Json.isObj).map
               searchView).length)])) ∧
    (reddit_post_retrieval
        (Env.mk (some "key")
          (fun _ _ _ => some (Json.obj [("snapshot_id", Json.str "s2")]))
          (fun _ _ => some (Json.obj [("status", Json.str "ready")]))
          (fun _ => some (Json.arr
            [Json.obj [("comment_id", Json.str "c1"),
                       ("comment", Json.str "hello"),
                       ("date_posted", Json.str "2024-01-01")],
             Json.null])))
        ["https://www.reddit.com/r/a/1"] 10 false "").1 =
      .ok (some (Json.obj
        [("comments", Json.arr
          (([Json.obj [("comment_id", Json.str "c1"),
                       ("comment", Json.str "hello"),
                       ("date_posted", Json.str "2024-01-01")],
             Json.null].filter Json.isObj).map commentView)),
         ("total_retrieved",
          Json.num (([Json.obj [("comment_id", Json.str "c1"),
                       ("comment", Json.str "hello"),
                       ("date_posted", Json.str "2024-01-01")],
             Json.null].filter Json.isObj).map commentView).length)])) :=
  reddit_adapters_drop_malformed _ _ "key" "key" "kw" "All time" "Hot" "s1" "s2"
    "" 75 10 false ["https://www.reddit.com/r/a/1"]
    [Json.obj [("title", Json.str "t"), ("url", Json.str "u")],
     Json.str "junk", Json.num 7]
    [Json.obj [("comment_id", Json.str "c1"), ("comment", Json.str "hello"),
               ("date_posted", Json.str "2024-01-01")], Json.null]
    rfl rfl (by simp) (by simp [classify, Json.get]) rfl (by simp)
    rfl (by simp) rfl (by simp) (by simp [classify, Json.get]) rfl (by simp)

/-- C10: every non-`None` result of `reddit_search_api` carries
`total_found` equal to the length of `parsed_posts`, and every non-`None`
result of `reddit_post_retrieval` carries `total_retrieved` equal to the
length of `comments` — for every environment and every argument list. -/
theorem reddit_counts_match_length (env env2 : Env) (kw date sb cl : String)
    (n db : Int) (lar : Bool) (urls : List String) (r r2 : Json)
    (tr tr2 : List NetEvent)
    (h1 : reddit_search_api env kw date sb n = (.ok (some r), tr))
    (h2 : reddit_post_retrieval env2 urls db lar cl = (.ok (some r2), tr2)) :
    (∃ ps, r.get "parsed_posts" = some (Json.arr ps) ∧
      r.get "total_found" = some (Json.num ps.length)) ∧
    (∃ cs, r2.get "comments" = some (Json.arr cs) ∧
      r2.get "total_retrieved" = some (Json.num cs.length)) := by
  constructor
  · unfold reddit_search_api at h1
    rcases hp : execute_snapshot_pipeline env triggerUrl redditSearchParams
        (redditSearchPayload kw date sb n) with ⟨e, tr'⟩
    rw [hp] at h1
    rcases e with e | sd
    · simp at h1
    · rcases sd with _ | j
      · simp [optTruthy] at h1
      · by_cases ht : j.isTruthy
        · rcases hit : j.pyIter with _ | items
          · simp [optTruthy, ht, hit] at h1
          · simp [optTruthy, ht, hit] at h1
            refine ⟨items.filterMap parseSearchRecord, ?_, ?_⟩ <;>
              simp [← h1.1, Json.get, List.lookup]
        · simp [optTruthy, ht] at h1
  · unfold reddit_post_retrieval at h2
    by_cases hu : urls.isEmpty
    · simp [hu] at h2
    · rcases hp : execute_snapshot_pipeline env2 triggerUrl redditPostsParams
          (redditPostsPayload urls db lar cl) with ⟨e, tr'⟩
      simp only [hu, if_neg, Bool.false_eq_true, not_false_iff] at h2
      rw [hp] at h2
      rcases e with e | sd
      · simp at h2
      · rcases sd with _ | j
        · simp [optTruthy] at h2
        · by_cases ht : j.isTruthy
          · rcases hit : j.pyIter with _ | items
            · simp [optTruthy, ht, hit] at h2
            · simp [optTruthy, ht, hit] at h2
              refine ⟨items.filterMap parseCommentRecord, ?_, ?_⟩ <;>
                simp [← h2.1, Json.get, List.lookup]
          · simp [optTruthy, ht] at h2

/-- Witness for `reddit_counts_match_length` at concrete successful
environments: one-record payloads yield counts of 1. -/
theorem reddit_counts_match_length_witness :
    (∃ ps, (Json.obj
      [("parsed_posts", Json.arr
        [Json.obj [("title", Json.str "t"), ("url", Json.str "u")]]),
       ("total_found", Json.num 1)]).get "parsed_posts" = some (Json.arr ps) ∧
      (Json.obj
      [("parsed_posts", Json.arr
        [Json.obj [("title", Json.str "t"), ("url", Json.str "u")]]),
       ("total_found", Json.num 1)]).get "total_found" =
        some (Json.num ps.length)) ∧
    (∃ cs, (Json.obj
      [("comments", Json.arr [Json.obj [("comment_id", Json.str "c"),
        ("content", Json.str "x"), ("date", Json.str "d")]]),
       ("total_retrieved", Json.num 1)]).get "comments" = some (Json.arr cs) ∧
      (Json.obj
      [("comments", Json.arr [Json.obj [("comment_id", Json.str "c"),
        ("content", Json.str "x"), ("date", Json.str "d")]]),
       ("total_retrieved", Json.num 1)]).get "total_retrieved" =
        some (Json.num cs.length)) :=
  reddit_counts_match_length
    (Env.mk (some "key")
      (fun _ _ _ => some (Json.obj [("snapshot_id", Json.str "s1")]))
      (fun _ _ => some (Json.obj [("status", Json.str "ready")]))
      (fun _ => some (Json.arr
        [Json.obj [("title", Json.str "t"), ("url", Json.str "u")]])))
    (Env.mk (some "key")
      (fun _ _ _ => some (Json.obj [("snapshot_id", Json.str "s2")]))
      (fun _ _ => some (Json.obj [("status", Json.str "ready")]))
      (fun _ => some (Json.arr [Json.obj [("comment_id", Json.str "c"),
        ("comment", Json.str "x"), ("date_posted", Json.str "d")]])))
    "kw" "All time" "Hot" "" 75 10 false ["https://www.reddit.com/r/a/1"]
    _ _ _ _ rfl rfl

/-! ## Orchestration graph (`main.py`) -/

/-- The structured-output schema of the Reddit URL-selection model call. -/
structure RedditURLSelection where
  selected_urls : List String

/-- The graph's external collaborators, modelled at the node boundary:
`serp engine query` and `redditSearch keyword` are the values returned by
the corresponding adapter calls (which fail closed to `None`);
`llmSelect` is the structured-output model call of `extract_reddit_urls`
(`.error` = the call raised); `redditPosts urls` is the value returned by
`reddit_post_retrieval`; the `llm*` oracles are the summarisation /
synthesis model calls, taking exactly the data interpolated into their
prompts. -/
structure GraphEnv where
  serp : String → String → Option Json
  redditSearch : String → Option Json
  llmSelect : String → Json → Except Unit RedditURLSelection
  redditPosts : List String → Option Json
  llmGoogle : String → Option Json → String
  llmBing : String → Option Json → String
  llmReddit : String → Option Json → Option Json → String
  llmSynth : String → Option String → Option String → Option String → String

/-- The `ResearchState` record: the typed record threaded through the graph.
`messages` is the append-only `(role, content)` log; every other field is
optional and starts as `None` (see `initState`).  `reddit_posts_data` is
annotated `list | None` in the source but modelled as `Option Json`
because the code in fact stores a dict there (see
`fetch_reddit_posts_stores_result_dict`). -/
structure ResearchState where
  messages : List (String × String)
  user_query : String
  google_output : Option Json
  bing_output : Option Json
  reddit_output : Option Json
  chosen_reddit_urls : Option (List String)
  reddit_posts_data : Option Json
  google_summary : Option String
  bing_summary : Option String
  reddit_summary : Option String
  final_summary : Option String

/-- The initial state `start_agent` builds for a query. -/
def initState (q : String) : ResearchState :=
  ⟨[("user", q)], q, none, none, none, none, none, none, none, none, none⟩

/-- Node `perform_google_search`. -/
def perform_google_search (env : GraphEnv) (s : ResearchState) : ResearchState :=
  { s with google_output := env.serp "google" s.user_query }

/-- Node `perform_bing_search`. -/
def perform_bing_search (env : GraphEnv) (s : ResearchState) : ResearchState :=
  { s with bing_output := env.serp "bing" s.user_query }

/-- Node `perform_reddit_search`. -/
def perform_reddit_search (env : GraphEnv) (s : ResearchState) : ResearchState :=
  { s with reddit_output := env.redditSearch s.user_query }

/-- Node `extract_reddit_urls`: a falsy (`None`/empty) Reddit raw output
short-circuits to an empty URL list without invoking the model; a model
error is caught and degrades to an empty list.  The second component
counts model invocations. -/
def chosenUrls (env : GraphEnv) (s : ResearchState) : List String × Nat :=
  match s.reddit_output with
  | none => ([], 0)
  | some raw =>
    if raw.isTruthy then
      match env.llmSelect s.user_query raw with
      | .ok sel => (sel.selected_urls, 1)
      | .error _ => ([], 1)
    else ([], 0)

/-- The node's returned patch: the computed URL list is written to
`chosen_reddit_urls`. -/
def extract_reddit_urls (env : GraphEnv) (s : ResearchState) :
    ResearchState × Nat :=
  let r := chosenUrls env s
  ({ s with chosen_reddit_urls := some r.1 }, r.2)

/-- Node `fetch_reddit_posts`: an empty (or `None`) URL list
short-circuits to an empty post list without calling the adapter;
otherwise the adapter's result is stored as-is when truthy and replaced
by `[]` when falsy (`posts or []`).  The second component counts adapter
(network) invocations. -/
def fetchedPosts (env : GraphEnv) (s : ResearchState) : Json × Nat :=
  let urls := s.chosen_reddit_urls.getD []
  if urls.isEmpty then (Json.arr [], 0)
  else
    match env.redditPosts urls with
    | some p => (if p.isTruthy then p else Json.arr [], 1)
    | none => (Json.arr [], 1)

/-- The node's returned patch: the computed value is written to
`reddit_posts_data`. -/
def fetch_reddit_posts (env : GraphEnv) (s : ResearchState) :
    ResearchState × Nat :=
  let r := fetchedPosts env s
  ({ s with reddit_posts_data := some r.1 }, r.2)

/-- Node `analyze_google_data`. -/
def analyze_google_data (env : GraphEnv) (s : ResearchState) : ResearchState :=
  { s with google_summary := some (env.llmGoogle s.user_query s.google_output) }

/-- Node `analyze_bing_data`. -/
def analyze_bing_data (env : GraphEnv) (s : ResearchState) : ResearchState :=
  { s with bing_summary := some (env.llmBing s.user_query s.bing_output) }

/-- Node `analyze_reddit_data`. -/
def analyze_reddit_data (env : GraphEnv) (s : ResearchState) : ResearchState :=
  let sm := env.llmReddit s.user_query s.reddit_output s.reddit_posts_data
  { s with reddit_summary := some sm }

/-- Node `combine_insights`: one synthesis model call over the three
summary fields, writing `final_summary` and appending one assistant
message. -/
def combine_insights (env : GraphEnv) (s : ResearchState) : ResearchState :=
  let final := env.llmSynth s.user_query s.google_summary s.bing_summary
    s.reddit_summary
  { s with final_summary := some final,
           messages := s.messages ++ [("assistant", final)] }

/-- The nine graph nodes, named as in `workflow.add_node`. -/
inductive GNode where
  | google_search
  | bing_search
  | reddit_search
  | extract_reddit_urls
  | fetch_reddit_posts
  | analyze_google
  | analyze_bing
  | analyze_reddit
  | synthesize_results
deriving DecidableEq

/-- All nine nodes. -/
def allNodes : List GNode :=
  [.google_search, .bing_search, .reddit_search, .extract_reddit_urls,
   .fetch_reddit_posts, .analyze_google, .analyze_bing, .analyze_reddit,
   .synthesize_results]

/-- Direct dependencies (incoming edges) of each node, per the
`workflow.add_edge` calls. -/
def deps : GNode → List GNode
  | .google_search => []
  | .bing_search => []
  | .reddit_search => []
  | .extract_reddit_urls => [.google_search, .bing_search, .reddit_search]
  | .fetch_reddit_posts => [.extract_reddit_urls]
  | .analyze_google => [.fetch_reddit_posts]
  | .analyze_bing => [.fetch_reddit_posts]
  | .analyze_reddit => [.fetch_reddit_posts]
  | .synthesize_results => [.analyze_google, .analyze_bing, .analyze_reddit]

/-- Execute one node, merging its partial-state patch into the state
(the engine's merge is last-write-wins per field; each node writes its
own fields). -/
def stepNode (env : GraphEnv) (s : ResearchState) : GNode → ResearchState
  | .google_search => perform_google_search env s
  | .bing_search => perform_bing_search env s
  | .reddit_search => perform_reddit_search env s
  | .extract_reddit_urls => (extract_reddit_urls env s).1
  | .fetch_reddit_posts => (fetch_reddit_posts env s).1
  | .analyze_google => analyze_google_data env s
  | .analyze_bing => analyze_bing_data env s
  | .analyze_reddit => analyze_reddit_data env s
  | .synthesize_results => combine_insights env s

/-- Run the nodes of a schedule in order. -/
def runGraph (env : GraphEnv) (s : ResearchState) (sched : List GNode) :
    ResearchState :=
  sched.foldl (stepNode env) s

/-- A valid execution of the graph: a duplicate-free enumeration of all
nine nodes in which every node's direct dependencies are scheduled
strictly before it (any topological order the host engine may choose). -/
def validSchedule (sched : List GNode) : Prop :=
  sched.Nodup ∧ (∀ n ∈ allNodes, n ∈ sched) ∧
  ∀ i < sched.length,
    ∀ d ∈ deps (sched.getD i GNode.google_search), d ∈ sched.take i

/-- C5: the Reddit branch degrades instead of halting: with a falsy
(`None`/empty) Reddit raw output, `extract_reddit_urls` writes an empty
URL list and performs 0 model invocations; with a truthy raw output but a
raised model call, it catches the error and writes an empty URL list
(1 invocation, no exception escapes — the node functions are total);
and with an empty chosen-URL list, `fetch_reddit_posts` writes an empty
post list with 0 adapter (network) invocations. -/
theorem reddit_branch_degrades_gracefully (env : GraphEnv)
    (s1 s2 s3 : ResearchState) (raw : Json)
    (hraw : optTruthy s1.reddit_output = false)
    (hraw2 : s2.reddit_output = some raw) (htru : raw.isTruthy = true)
    (hllm : env.llmSelect s2.user_query raw = .error ())
    (hurls : s3.chosen_reddit_urls.getD [] = []) :
    extract_reddit_urls env s1 = ({ s1 with chosen_reddit_urls := some [] }, 0) ∧
    extract_reddit_urls env s2 = ({ s2 with chosen_reddit_urls := some [] }, 1) ∧
    fetch_reddit_posts env s3 =
      ({ s3 with reddit_posts_data := some (Json.arr []) }, 0) := by
  refine ⟨?_, ?_, ?_⟩
  · rcases hro : s1.reddit_output with _ | j
    · simp [extract_reddit_urls, chosenUrls, hro]
    · rw [hro] at hraw
      simp only [optTruthy] at hraw
      simp [extract_reddit_urls, chosenUrls, hro, hraw]
  · simp [extract_reddit_urls, chosenUrls, hraw2, htru, hllm]
  · simp [fetch_reddit_posts, fetchedPosts, hurls]

/-- Witness for `reddit_branch_degrades_gracefully` at concrete states:
a `None` Reddit output, a failing model call, and an empty URL list. -/
theorem reddit_branch_degrades_gracefully_witness :
    extract_reddit_urls
        (GraphEnv.mk (fun _ _ => none) (fun _ => none)
          (fun _ _ => .error ()) (fun _ => none)
          (fun _ _ => "g") (fun _ _ => "b") (fun _ _ _ => "r")
          (fun _ _ _ _ => "f"))
        (initState "q") =
      ({ initState "q" with chosen_reddit_urls := some [] }, 0) ∧
    extract_reddit_urls
        (GraphEnv.mk (fun _ _ => none) (fun _ => none)
          (fun _ _ => .error ()) (fun _ => none)
          (fun _ _ => "g") (fun _ _ => "b") (fun _ _ _ => "r")
          (fun _ _ _ _ => "f"))
        { initState "q" with reddit_output := some (Json.str "posts") } =
      ({ { initState "q" with reddit_output := some (Json.str "posts") } with chosen_reddit_urls := some [] }, 1) ∧
    fetch_reddit_posts
        (GraphEnv.mk (fun _ _ => none) (fun _ => none)
          (fun _ _ => .error ()) (fun _ => none)
          (fun _ _ => "g") (fun _ _ => "b") (fun _ _ _ => "r")
          (fun _ _ _ _ => "f"))
        { initState "q" with chosen_reddit_urls := some [] } =
      ({ { initState "q" with chosen_reddit_urls := some [] } with reddit_posts_data := some (Json.arr []) }, 0) :=
  reddit_branch_degrades_gracefully _ (initState "q")
    { initState "q" with reddit_output := some (Json.str "posts") }
    { initState "q" with chosen_reddit_urls := some [] }
    (Json.str "posts") rfl rfl rfl rfl rfl

/-- C4 (code bug): when comment retrieval succeeds,
`reddit_post_retrieval` returns the dict
`{"comments": [...], "total_retrieved": n}` and `fetch_reddit_posts`
stores that whole dict — not a list of `{comment_id, content, date}`
records — into `reddit_posts_data`, contradicting the field's own
`list | None` annotation in `ResearchState` (and the
`len(posts)`-as-post-count log line).  Evaluated at a concrete failing
input: one chosen URL, a one-comment snapshot. -/
theorem fetch_reddit_posts_stores_result_dict :
    (reddit_post_retrieval
        (Env.mk (some "key")
          (fun _ _ _ => some (Json.obj [("snapshot_id", Json.str "s9")]))
          (fun _ _ => some (Json.obj [("status", Json.str "ready")]))
          (fun _ => some (Json.arr [Json.obj
            [("comment_id", Json.str "c1"), ("comment", Json.str "hello"),
             ("date_posted", Json.str "2024-01-01")]])))
        ["https://www.reddit.com/r/a/1"] 10 false "").1 =
      .ok (some (Json.obj
        [("comments", Json.arr [Json.obj
          [("comment_id", Json.str "c1"), ("content", Json.str "hello"),
           ("date", Json.str "2024-01-01")]]),
         ("total_retrieved", Json.num 1)])) ∧
    (fetch_reddit_posts
        (GraphEnv.mk (fun _ _ => none) (fun _ => none)
          (fun _ _ => .error ())
          (fun _ => some (Json.obj
            [("comments", Json.arr [Json.obj
              [("comment_id", Json.str "c1"), ("content", Json.str "hello"),
               ("date", Json.str "2024-01-01")]]),
             ("total_retrieved", Json.num 1)]))
          (fun _ _ => "g") (fun _ _ => "b") (fun _ _ _ => "r")
          (fun _ _ _ _ => "f"))
        { initState "q" with chosen_reddit_urls := some ["https://www.reddit.com/r/a/1"] }
      ).1.reddit_posts_data =
      some (Json.obj
        [("comments", Json.arr [Json.obj
          [("comment_id", Json.str "c1"), ("content", Json.str "hello"),
           ("date", Json.str "2024-01-01")]]),
         ("total_retrieved", Json.num 1)]) ∧
    Json.isArr (Json.obj
        [("comments", Json.arr [Json.obj
          [("comment_id", Json.str "c1"), ("content", Json.str "hello"),
           ("date", Json.str "2024-01-01")]]),
         ("total_retrieved", Json.num 1)]) = false :=
  ⟨rfl, rfl, rfl⟩

lemma runGraph_google_summary_iff (env : GraphEnv) :
    ∀ (l : List GNode) (σ : ResearchState),
    ((l.foldl (stepNode env) σ).google_summary ≠ none) ↔
      (σ.google_summary ≠ none ∨ GNode.analyze_google ∈ l) := by
  intro l
  induction l with
  | nil => intro σ; simp
  | cons n t ih =>
    intro σ
    rw [List.foldl_cons, ih]
    cases n <;>
      simp [stepNode, perform_google_search, perform_bing_search,
        perform_reddit_search, extract_reddit_urls, fetch_reddit_posts,
        analyze_google_data, analyze_bing_data, analyze_reddit_data,
        combine_insights]

lemma runGraph_bing_summary_iff (env : GraphEnv) :
    ∀ (l : List GNode) (σ : ResearchState),
    ((l.foldl (stepNode env) σ).bing_summary ≠ none) ↔
      (σ.bing_summary ≠ none ∨ GNode.analyze_bing ∈ l) := by
  intro l
  induction l with
  | nil => intro σ; simp
  | cons n t ih =>
    intro σ
    rw [List.foldl_cons, ih]
    cases n <;>
      simp [stepNode, perform_google_search, perform_bing_search,
        perform_reddit_search, extract_reddit_urls, fetch_reddit_posts,
        analyze_google_data, analyze_bing_data, analyze_reddit_data,
        combine_insights]

lemma runGraph_reddit_summary_iff (env : GraphEnv) :
    ∀ (l : List GNode) (σ : ResearchState),
    ((l.foldl (stepNode env) σ).reddit_summary ≠ none) ↔
      (σ.reddit_summary ≠ none ∨ GNode.analyze_reddit ∈ l) := by
  intro l
  induction l with
  | nil => intro σ; simp
  | cons n t ih =>
    intro σ
    rw [List.foldl_cons, ih]
    cases n <;>
      simp [stepNode, perform_google_search, perform_bing_search,
        perform_reddit_search, extract_reddit_urls, fetch_reddit_posts,
        analyze_google_data, analyze_bing_data, analyze_reddit_data,
        combine_insights]

lemma runGraph_final_summary_iff (env : GraphEnv) :
    ∀ (l : List GNode) (σ : ResearchState),
    ((l.foldl (stepNode env) σ).final_summary ≠ none) ↔
      (σ.final_summary ≠ none ∨ GNode.synthesize_results ∈ l) := by
  intro l
  induction l with
  | nil => intro σ; simp
  | cons n t ih =>
    intro σ
    rw [List.foldl_cons, ih]
    cases n <;>
      simp [stepNode, perform_google_search, perform_bing_search,
        perform_reddit_search, extract_reddit_urls, fetch_reddit_posts,
        analyze_google_data, analyze_bing_data, analyze_reddit_data,
        combine_insights]

lemma mem_take_mono {α : Type} {l : List α} {i k : Nat} {x : α}
    (h : i ≤ k) (hx : x ∈ l.take i) : x ∈ l.take k := by
  have heq : l.take i = (l.take k).take i := by
    rw [List.take_take, Nat.min_eq_left h]
  rw [heq] at hx
  exact List.take_subset i (l.take k) hx

lemma valid_deps_closed {sched : List GNode} (hv : validSchedule sched)
    (k : Nat) (n : GNode) (hn : n ∈ sched.take k) :
    ∀ d ∈ deps n, d ∈ sched.take k := by
  intro d hd
  obtain ⟨i, hi, hgn⟩ := List.getElem_of_mem hn
  have hik : i < k := by
    have := List.length_take k sched ▸ hi
    omega
  have hil : i < sched.length := by
    have := List.length_take k sched ▸ hi
    omega
  have hsi : sched[i] = n := by
    rw [List.getElem_take] at hgn
    exact hgn
  have hvd := hv.2.2 i hil d
  rw [List.getD_eq_getElem sched GNode.google_search hil, hsi] at hvd
  exact mem_take_mono (by omega) (hvd hd)

/-- C3 (amended): in every valid execution order and at every prefix of
the run, each per-source summary field is populated only after the
corresponding search node has completed (i.e. after the raw-output field
has been written — though the written value may be `None` when the
provider failed), and `final_summary` is populated only after all three
summary fields exist. -/
theorem research_state_population_order (env : GraphEnv) (q : String)
    (sched : List GNode) (hv : validSchedule sched) (k : Nat) :
    ((runGraph env (initState q) (sched.take k)).google_summary ≠ none →
      GNode.google_search ∈ sched.take k) ∧
    ((runGraph env (initState q) (sched.take k)).bing_summary ≠ none →
      GNode.bing_search ∈ sched.take k) ∧
    ((runGraph env (initState q) (sched.take k)).reddit_summary ≠ none →
      GNode.reddit_search ∈ sched.take k) ∧
    ((runGraph env (initState q) (sched.take k)).final_summary ≠ none →
      (runGraph env (initState q) (sched.take k)).google_summary ≠ none ∧
      (runGraph env (initState q) (sched.take k)).bing_summary ≠ none ∧
      (runGraph env (initState q) (sched.take k)).reddit_summary ≠ none) := by
  have hchain : ∀ a : GNode, a ∈ sched.take k →
      GNode.fetch_reddit_posts ∈ deps a → GNode.google_search ∈ sched.take k ∧
      GNode.bing_search ∈ sched.take k ∧ GNode.reddit_search ∈ sched.take k := by
    intro a ha hfd
    have hf := valid_deps_closed hv k a ha GNode.fetch_reddit_posts hfd
    have he := valid_deps_closed hv k GNode.fetch_reddit_posts hf
      GNode.extract_reddit_urls (by simp [deps])
    refine ⟨?_, ?_, ?_⟩ <;>
      exact valid_deps_closed hv k GNode.extract_reddit_urls he _ (by simp [deps])
  refine ⟨?_, ?_, ?_, ?_⟩
  · intro h
    have hag : GNode.analyze_google ∈ sched.take k := by
      have := (runGraph_google_summary_iff env (sched.take k) (initState q)).mp h
      simpa [initState] using this
    exact (hchain GNode.analyze_google hag (by simp [deps])).1
  · intro h
    have hab : GNode.analyze_bing ∈ sched.take k := by
      have := (runGraph_bing_summary_iff env (sched.take k) (initState q)).mp h
      simpa [initState] using this
    exact (hchain GNode.analyze_bing hab (by simp [deps])).2.1
  · intro h
    have har : GNode.analyze_reddit ∈ sched.take k := by
      have := (runGraph_reddit_summary_iff env (sched.take k) (initState q)).mp h
      simpa [initState] using this
    exact (hchain GNode.analyze_reddit har (by simp [deps])).2.2
  · intro h
    have hsy : GNode.synthesize_results ∈ sched.take k := by
      have := (runGraph_final_summary_iff env (sched.take k) (initState q)).mp h
      simpa [initState] using this
    have hag := valid_deps_closed hv k GNode.synthesize_results hsy
      GNode.analyze_google (by simp [deps])
    have hab := valid_deps_closed hv k GNode.synthesize_results hsy
      GNode.analyze_bing (by simp [deps])
    have har := valid_deps_closed hv k GNode.synthesize_results hsy
      GNode.analyze_reddit (by simp [deps])
    refine ⟨?_, ?_, ?_⟩
    · exact (runGraph_google_summary_iff env (sched.take k) (initState q)).mpr
        (Or.inr hag)
    · exact (runGraph_bing_summary_iff env (sched.take k) (initState q)).mpr
        (Or.inr hab)
    · exact (runGraph_reddit_summary_iff env (sched.take k) (initState q)).mpr
        (Or.inr har)

instance decidableValidSchedule (sched : List GNode) :
    Decidable (validSchedule sched) := by
  unfold validSchedule
  infer_instance

/-- A concrete topological order of the nine nodes (the textual order of
the `workflow.add_node` calls, which respects every edge). -/
def demoSchedule : List GNode :=
  [.google_search, .bing_search, .reddit_search, .extract_reddit_urls,
   .fetch_reddit_posts, .analyze_google, .analyze_bing, .analyze_reddit,
   .synthesize_results]

/-- A concrete collaborator environment in which the Google SERP adapter
fails closed (returns `None`) while the model calls succeed. -/
def demoGraphEnv : GraphEnv :=
  GraphEnv.mk (fun _ _ => none) (fun _ => none) (fun _ _ => .error ())
    (fun _ => none) (fun _ _ => "gs") (fun _ _ => "bs") (fun _ _ _ => "rs")
    (fun _ _ _ _ => "fs")

/-- C3 (counterexample to the claim as stated): in a valid execution
order where the Google search adapter fails closed, the completed run has
`google_summary` populated while `google_output` is still null — the
summary is not gated on a non-null raw output (`analyze_google` runs
unconditionally). -/
theorem research_state_population_counterexample :
    validSchedule demoSchedule ∧
    (runGraph demoGraphEnv (initState "q") demoSchedule).google_summary ≠ none ∧
    (runGraph demoGraphEnv (initState "q") demoSchedule).google_output = none := by
  refine ⟨by decide, by decide, rfl⟩

/-- Witness for `research_state_population_order` at the concrete
schedule `demoSchedule` (validity discharged by `decide`), environment
`demoGraphEnv`, and the full prefix. -/
theorem research_state_population_order_witness :
    ((runGraph demoGraphEnv (initState "q") (demoSchedule.take 9)).google_summary
        ≠ none → GNode.google_search ∈ demoSchedule.take 9) ∧
    ((runGraph demoGraphEnv (initState "q") (demoSchedule.take 9)).bing_summary
        ≠ none → GNode.bing_search ∈ demoSchedule.take 9) ∧
    ((runGraph demoGraphEnv (initState "q") (demoSchedule.take 9)).reddit_summary
        ≠ none → GNode.reddit_search ∈ demoSchedule.take 9) ∧
    ((runGraph demoGraphEnv (initState "q") (demoSchedule.take 9)).final_summary
        ≠ none →
      (runGraph demoGraphEnv (initState "q") (demoSchedule.take 9)).google_summary
        ≠ none ∧
      (runGraph demoGraphEnv (initState "q") (demoSchedule.take 9)).bing_summary
        ≠ none ∧
      (runGraph demoGraphEnv (initState "q") (demoSchedule.take 9)).reddit_summary
        ≠ none) :=
  research_state_population_order demoGraphEnv "q" demoSchedule (by decide) 9
